import Mathlib

/-!
# Verification of the Live chat stream containers

Shallow embedding of the two components under
`src/core/client/stream/tabs/Live/`:

* `LiveChatContainer.tsx` — the scrolling chat container: pagination in both
  directions guarded by in-flight flags, tailing mode, persisted cursor
  updates, and the jump-to-new-comment pointer.
* `LiveComment/LiveCommentActionsContainer.tsx` — the per-comment action bar,
  in particular the render condition of the report control.

Stateful React code (refs, local relay state) is embedded as explicit state
passing: `ChatState` collects the mutable cells of `LiveChatContainer`, each
event handler becomes a function `... → ChatState → ChatState`, and the UI
event loop becomes a fold of a `step` function over a list of `Event`s.
-/

namespace LiveChat

/-! ## Action bar (LiveCommentActionsContainer.tsx) -/

/-- The user statuses tested by the action bar (`GQLUSER_STATUS` members used
in the source). -/
inductive GQLUSER_STATUS
  | ACTIVE
  | BANNED
  | SUSPENDED
  | WARNED
deriving DecidableEq, Repr

/-- `viewer.status.current` of the `LiveCommentActionsContainer_viewer`
fragment: the list of current statuses. -/
structure ViewerStatus where
  current : List GQLUSER_STATUS
deriving DecidableEq, Repr

/-- The viewer data used by the action bar. -/
structure Viewer where
  id : String
  status : ViewerStatus
deriving DecidableEq, Repr

/-- `!!viewer?.status.current.includes(st)` — false when the viewer is null
(LiveCommentActionsContainer.tsx lines 46-54). -/
def includesStatus (viewer : Option Viewer) (st : GQLUSER_STATUS) : Bool :=
  match viewer with
  | some v => v.status.current.contains st
  | none => false

/-- `isViewerBanned` (LiveCommentActionsContainer.tsx line 46). -/
def isViewerBanned (viewer : Option Viewer) : Bool :=
  includesStatus viewer GQLUSER_STATUS.BANNED

/-- `isViewerSuspended` (LiveCommentActionsContainer.tsx line 49). -/
def isViewerSuspended (viewer : Option Viewer) : Bool :=
  includesStatus viewer GQLUSER_STATUS.SUSPENDED

/-- `isViewerWarned` (LiveCommentActionsContainer.tsx line 52). -/
def isViewerWarned (viewer : Option Viewer) : Bool :=
  includesStatus viewer GQLUSER_STATUS.WARNED

/-- `showModerationCaret = !!viewer && story.canModerate &&
can(viewer, Ability.MODERATE)` (LiveCommentActionsContainer.tsx lines 62-63).
The external permission check `can` from `coral-stream/permissions` is
abstracted as a function argument. -/
def showModerationCaret (viewer : Option Viewer) (storyCanModerate : Bool)
    (can : Viewer → Bool) : Bool :=
  match viewer with
  | some v => storyCanModerate && can v
  | none => false

/-- Render condition of the `ReportButton` (LiveCommentActionsContainer.tsx
lines 154-159): `viewer && !isViewerBanned && !isViewerSuspended &&
!isViewerWarned && !showModerationCaret && onToggleReport`.
`onToggleReportSupplied` models the truthiness of the optional
`onToggleReport` prop. -/
def showReportButton (viewer : Option Viewer) (storyCanModerate : Bool)
    (can : Viewer → Bool) (onToggleReportSupplied : Bool) : Bool :=
  viewer.isSome && !isViewerBanned viewer && !isViewerSuspended viewer &&
    !isViewerWarned viewer && !showModerationCaret viewer storyCanModerate can &&
    onToggleReportSupplied

/-! ## Persisted cursor record (LiveChatContainer.tsx `onCommentVisible`) -/

/-- The persisted cursor record `{createdAt, cursor}` stored under
`liveCursor:<storyID>:<storyURL>` (./cursorState). Timestamps are embedded as
naturals: `new Date(a) > new Date(b)` on valid timestamps is the order on the
underlying instants. -/
structure CursorState where
  createdAt : Nat
  cursor : String
deriving DecidableEq, Repr

/-- The cursor-update part of `onCommentVisible` (LiveChatContainer.tsx lines
446-473): the stored record after one visibility callback with the given
`createdAt` and `cursor`. The record is overwritten when a record exists and
the new `createdAt` is strictly newer, or written when no record exists;
otherwise the stored record is kept. -/
def onCommentVisibleCursor (current : Option CursorState) (createdAt : Nat)
    (cursor : String) : Option CursorState :=
  match current with
  | some c =>
      if c.createdAt < createdAt then some { createdAt := createdAt, cursor := cursor }
      else some c
  | none => some { createdAt := createdAt, cursor := cursor }

/-- The stored record after a sequence of visibility callbacks for the same
story/url key, each carrying a `(createdAt, cursor)` pair. -/
def runCursorUpdates (current : Option CursorState)
    (updates : List (Nat × String)) : Option CursorState :=
  List.foldl (fun acc u => onCommentVisibleCursor acc u.1 u.2) current updates

/-- The `createdAt` of a stored record, `0` when none is stored. -/
def getCreatedAt (current : Option CursorState) : Nat :=
  match current with
  | some c => c.createdAt
  | none => 0

/-! ## Chat container state (LiveChatContainer.tsx) -/

/-- The jump-to-new-comment pointer (`NewComment` in LiveChatContainer.tsx
lines 91-94). -/
structure NewComment where
  id : String
  cursor : String
deriving DecidableEq, Repr

/-- The mutable cells of `LiveChatContainer`:

* `tailing` — the relay-local `liveChat.tailing` flag;
* `beforeCommentsIncoming` / `afterCommentsIncoming` — the `useRef(false)`
  in-flight guards (lines 245, 308);
* `beforeOutstanding` / `afterOutstanding` — environment counters of
  outstanding `loadMoreBefore` / `loadMoreAfter` network requests;
* `clearScrollPending` — whether a `clearScrollState` timeout is scheduled
  (`clearScrollStateTimeout`, line 212);
* `prevScrollHeight` / `prevScrollTop` — the scroll snapshot refs
  (lines 209-210);
* `scrollEnabledVal` — the boolean stored in `scrollEnabled.current`
  (line 139);
* `newComment` — the jump-to-new-comment pointer state (line 148). -/
structure ChatState where
  tailing : Bool
  beforeCommentsIncoming : Bool
  afterCommentsIncoming : Bool
  beforeOutstanding : Nat
  afterOutstanding : Nat
  clearScrollPending : Bool
  prevScrollHeight : Option Int
  prevScrollTop : Option Int
  scrollEnabledVal : Bool
  newComment : Option NewComment
deriving DecidableEq, Repr

/-- Modelled from the spec: the initial value of the relay-local
`liveChat.tailing` field is set outside the two source files; the spec fixes
it ("Tailing is ... false when a resume cursor is supplied", and the mount
effect does not touch tailing in the resume branch), so it is `false` here.
Every other field mirrors a `useRef`/`useState` initial value in
LiveChatContainer.tsx (`useRef(false)`, `useRef(null)`, `useState(null)`),
and the outstanding-request counters start at zero. -/
def initState : ChatState :=
  { tailing := false
    beforeCommentsIncoming := false
    afterCommentsIncoming := false
    beforeOutstanding := 0
    afterOutstanding := 0
    clearScrollPending := false
    prevScrollHeight := none
    prevScrollTop := none
    scrollEnabledVal := false
    newComment := none }

/-- Modelled from the spec: the relay pagination container supplying the
`isLoadingMoreBefore` prop is not under src/; per the spec's external
interface (a data-fetching layer with in-flight pagination state), the prop
is true exactly while a `loadMoreBefore` request is outstanding. -/
def isLoadingMoreBefore (s : ChatState) : Bool :=
  s.beforeOutstanding != 0

/-- Modelled from the spec: the `isLoadingMoreAfter` prop is true exactly
while a `loadMoreAfter` request is outstanding (see `isLoadingMoreBefore`). -/
def isLoadingMoreAfter (s : ChatState) : Bool :=
  s.afterOutstanding != 0

/-! ## Chat container handlers -/

/-- `onBeginInView` (LiveChatContainer.tsx lines 264-293): when
`beforeHasMore && !isLoadingMoreBefore && !beforeCommentsIncoming.current`,
set the in-flight guard, snapshot `scrollHeight`/`scrollTop`, emit the
load-before analytics event (no modelled effect) and call `loadMoreBefore()`
(one more outstanding backward request). The `catch` block ignores a failed
load and resets nothing; the failure is embedded in `beforeLoadDone`. -/
def onBeginInView (beforeHasMore isLoadingMoreBeforeP : Bool)
    (scrollHeight scrollTop : Int) (s : ChatState) : ChatState :=
  if beforeHasMore && !isLoadingMoreBeforeP && !s.beforeCommentsIncoming then
    { s with beforeCommentsIncoming := true
             prevScrollHeight := some scrollHeight
             prevScrollTop := some scrollTop
             beforeOutstanding := s.beforeOutstanding + 1 }
  else s

/-- `onEndInView` (LiveChatContainer.tsx lines 369-384): when
`afterHasMore && !isLoadingMoreAfter && !afterCommentsIncoming.current &&
!tailing`, set the in-flight guard, call `setTailing(false)` and then call
`loadMoreAfter()` (one more outstanding forward request). The `catch` block
ignores a failed load. -/
def onEndInView (afterHasMore isLoadingMoreAfterP : Bool) (s : ChatState) :
    ChatState :=
  if afterHasMore && !isLoadingMoreAfterP && !s.afterCommentsIncoming &&
      !s.tailing then
    { s with afterCommentsIncoming := true
             tailing := false
             afterOutstanding := s.afterOutstanding + 1 }
  else s

/-- The primitive effects performed by the body of `onEndInView`, in program
order. -/
inductive EndInViewAction
  | setAfterIncoming
  | emitSetTailingFalse
  | callLoadMoreAfter
deriving DecidableEq, Repr

/-- Effect trace of `onEndInView` (LiveChatContainer.tsx lines 369-384): under
the guard, the body is the statement sequence
`afterCommentsIncoming.current = true; setTailing(false);
await loadMoreAfter();`; otherwise nothing runs. -/
def onEndInViewTrace (afterHasMore isLoadingMoreAfterP afterIncomingP
    tailingP : Bool) : List EndInViewAction :=
  if afterHasMore && !isLoadingMoreAfterP && !afterIncomingP && !tailingP then
    [EndInViewAction.setAfterIncoming, EndInViewAction.emitSetTailingFalse,
      EndInViewAction.callLoadMoreAfter]
  else []

/-- `onTailingInView` (LiveChatContainer.tsx lines 410-418): when
`!afterHasMore && !isLoadingMoreAfter && !afterCommentsIncoming.current`,
`setTailing(true)`. -/
def onTailingInView (afterHasMore isLoadingMoreAfterP : Bool) (s : ChatState) :
    ChatState :=
  if !afterHasMore && !isLoadingMoreAfterP && !s.afterCommentsIncoming then
    { s with tailing := true }
  else s

/-- `clearScrollState` (LiveChatContainer.tsx lines 213-218): clears both
scroll snapshots and both in-flight guards. -/
def clearScrollState (s : ChatState) : ChatState :=
  { s with prevScrollHeight := none
           prevScrollTop := none
           beforeCommentsIncoming := false
           afterCommentsIncoming := false }

/-- `beforeCommentsChanged` (LiveChatContainer.tsx lines 248-262), fired by
the `useEffectAfterMount` on `beforeComments`: runs
`maintainPrevScrollStateAndClear` (directly, or after a 500ms delay on
Safari), which adjusts the scroll offset (no modelled effect) and schedules
`clearScrollState` on a 300ms timeout — embedded as `clearScrollPending`. -/
def beforeCommentsChangedStep (s : ChatState) : ChatState :=
  { s with clearScrollPending := true }

/-- `afterCommentsChanged` (LiveChatContainer.tsx lines 347-361), fired by the
`useEffectAfterMount` on `afterComments`: when the forward in-flight guard is
set and not tailing, runs `paginateNewAfterComments`, which like the backward
path ends in scheduling `clearScrollState`; when tailing, disables
`scrollEnabled.current` and schedules the tailing scroll; otherwise
nothing. -/
def afterCommentsChangedStep (s : ChatState) : ChatState :=
  if s.afterCommentsIncoming && !s.tailing then
    { s with clearScrollPending := true }
  else if s.tailing then
    { s with scrollEnabledVal := false }
  else s

/-- Completion of an outstanding `loadMoreBefore` request: the request is no
longer outstanding; on success the relay store prepends to `beforeComments`,
firing `beforeCommentsChanged`; on failure (`ok = false`) the `catch` in
`onBeginInView` ignores the error and nothing else runs. -/
def beforeLoadDone (ok : Bool) (s : ChatState) : ChatState :=
  if ok then
    beforeCommentsChangedStep { s with beforeOutstanding := s.beforeOutstanding - 1 }
  else
    { s with beforeOutstanding := s.beforeOutstanding - 1 }

/-- Completion of an outstanding `loadMoreAfter` request: the request is no
longer outstanding; on success the relay store appends to `afterComments`,
firing `afterCommentsChanged`; on failure the `catch` in `onEndInView`
ignores the error and nothing else runs. -/
def afterLoadDone (ok : Bool) (s : ChatState) : ChatState :=
  if ok then
    afterCommentsChangedStep { s with afterOutstanding := s.afterOutstanding - 1 }
  else
    { s with afterOutstanding := s.afterOutstanding - 1 }

/-- The `clearScrollStateTimeout` timer firing (scheduled in
`maintainPrevScrollStateAndClear`, LiveChatContainer.tsx line 238): runs
`clearScrollState`. -/
def clearScrollTimerFire (s : ChatState) : ChatState :=
  if s.clearScrollPending then
    { clearScrollState s with clearScrollPending := false }
  else s

/-- The 300ms mount timer (LiveChatContainer.tsx lines 190-192) firing:
`scrollEnabled.current = true`. -/
def scrollEnabledTimerFire (s : ChatState) : ChatState :=
  { s with scrollEnabledVal := true }

/-- The mount effect (LiveChatContainer.tsx lines 173-205): returns early when
either in-flight guard is set; otherwise scrolls to the before/after boundary
when a resume cursor was supplied (`cursorSet`), or scrolls to the end and
`setTailing(true)` when not. (The 300ms `scrollEnabled` timer it schedules is
the separate event `scrollEnabledTimerFire`.) -/
def mountEffect (cursorSet : Bool) (s : ChatState) : ChatState :=
  if s.beforeCommentsIncoming || s.afterCommentsIncoming then s
  else if cursorSet then s
  else { s with tailing := true }

/-- The scroll-target actions of the mount effect, in program order. -/
inductive MountAction
  | scrollToBeforeAfter
  | scrollToEnd
  | setTailingTrue
deriving DecidableEq, Repr

/-- Action trace of the mount effect (LiveChatContainer.tsx lines 173-205). -/
def mountEffectTrace (cursorSet : Bool) (s : ChatState) : List MountAction :=
  if s.beforeCommentsIncoming || s.afterCommentsIncoming then []
  else if cursorSet then [MountAction.scrollToBeforeAfter]
  else [MountAction.scrollToEnd, MountAction.setTailingTrue]

/-- The at-bottom test of `onScroll` (LiveChatContainer.tsx lines 399-403):
`Math.abs(scrollTop - (scrollHeight - offsetHeight)) < 5`. -/
def atBottom (scrollTop scrollHeight offsetHeight : Int) : Bool :=
  (scrollTop - (scrollHeight - offsetHeight)).natAbs < 5

/-- `onScroll` (LiveChatContainer.tsx lines 390-408). The guard is
`if (!container || !begin || !scrollEnabled) return;` — `containerPresent`,
`beginPresent` and `scrollEnabledRefTruthy` embed the truthiness of
`containerRef.current`, `beginRef.current` and of the `scrollEnabled` ref
OBJECT itself. Note the source tests the ref object, not
`scrollEnabled.current`: a `useRef` object is always truthy, so the stored
boolean (`ChatState.scrollEnabledVal`) is not consulted. Past the guard the
body is `setTailing(atBottom && !afterHasMore)`. -/
def onScroll (containerPresent beginPresent scrollEnabledRefTruthy : Bool)
    (scrollTop scrollHeight offsetHeight : Int) (afterHasMore : Bool)
    (s : ChatState) : ChatState :=
  if !containerPresent || !beginPresent || !scrollEnabledRefTruthy then s
  else
    { s with tailing := atBottom scrollTop scrollHeight offsetHeight &&
        !afterHasMore }

/-- `onCommentSubmitted` (LiveChatContainer.tsx lines 581-592): returns early
when `commentID` or `cursor` is falsy (the empty string); otherwise records
the jump-to-new-comment pointer exactly when not tailing. -/
def onCommentSubmitted (commentID cursor : String) (s : ChatState) :
    ChatState :=
  if commentID = "" ∨ cursor = "" then s
  else if !s.tailing then
    { s with newComment := some { id := commentID, cursor := cursor } }
  else s

/-! ## Event loop -/

/-- The discrete events driving `LiveChatContainer`: handler invocations by
the UI, network completions, subscription pushes and timer firings. -/
inductive Event
  | mount (cursorSet : Bool)
  | scrollEnabledTimer
  | beginInView (beforeHasMore : Bool) (scrollHeight scrollTop : Int)
  | endInView (afterHasMore : Bool)
  | tailingInView (afterHasMore : Bool)
  | beforeLoadCompleted (ok : Bool)
  | afterLoadCompleted (ok : Bool)
  | subscriptionEntry
  | clearScrollTimer
  | scroll (scrollTop scrollHeight offsetHeight : Int) (afterHasMore : Bool)
  | commentSubmitted (id cursor : String)
deriving DecidableEq, Repr

/-- One step of the UI event loop. Handlers that read the
`isLoadingMoreBefore` / `isLoadingMoreAfter` props receive the modelled relay
values; `onScroll` receives truthy refs (`containerRef.current` and
`beginRef.current` are set once the container is mounted, and the
`scrollEnabled` ref object is always truthy). A `subscriptionEntry` event is
a push from `LiveCommentEnteredSubscription` appending to `afterComments`,
which fires `afterCommentsChanged`. -/
def step (s : ChatState) (e : Event) : ChatState :=
  match e with
  | Event.mount cursorSet => mountEffect cursorSet s
  | Event.scrollEnabledTimer => scrollEnabledTimerFire s
  | Event.beginInView hm sh st =>
      onBeginInView hm (isLoadingMoreBefore s) sh st s
  | Event.endInView hm => onEndInView hm (isLoadingMoreAfter s) s
  | Event.tailingInView hm => onTailingInView hm (isLoadingMoreAfter s) s
  | Event.beforeLoadCompleted ok => beforeLoadDone ok s
  | Event.afterLoadCompleted ok => afterLoadDone ok s
  | Event.subscriptionEntry => afterCommentsChangedStep s
  | Event.clearScrollTimer => clearScrollTimerFire s
  | Event.scroll st sh oh hm => onScroll true true true st sh oh hm s
  | Event.commentSubmitted id cursor => onCommentSubmitted id cursor s

/-- The state after a sequence of events from the initial state. -/
def run (evs : List Event) : ChatState :=
  List.foldl step initState evs

end LiveChat

namespace LiveChat

/-! ## Theorems -/

lemma step_bounded (s : ChatState) (e : Event)
    (hb : s.beforeOutstanding ≤ 1) (ha : s.afterOutstanding ≤ 1) :
    (step s e).beforeOutstanding ≤ 1 ∧ (step s e).afterOutstanding ≤ 1 := by
  cases e <;>
    simp only [step, mountEffect, scrollEnabledTimerFire, onBeginInView,
      onEndInView, onTailingInView, beforeLoadDone, afterLoadDone,
      beforeCommentsChangedStep, afterCommentsChangedStep, clearScrollTimerFire,
      clearScrollState, onScroll, onCommentSubmitted, isLoadingMoreBefore,
      isLoadingMoreAfter] <;>
    (try split_ifs) <;>
    simp_all [Bool.and_eq_true, Bool.not_eq_true']

lemma run_bounded (evs : List Event) :
    (run evs).beforeOutstanding ≤ 1 ∧ (run evs).afterOutstanding ≤ 1 := by
  have h : ∀ s : ChatState, s.beforeOutstanding ≤ 1 → s.afterOutstanding ≤ 1 →
      (List.foldl step s evs).beforeOutstanding ≤ 1 ∧
        (List.foldl step s evs).afterOutstanding ≤ 1 := by
    induction evs with
    | nil => intro s hb ha; exact ⟨hb, ha⟩
    | cons e tl ih =>
        intro s hb ha
        have hs := step_bounded s e hb ha
        simpa [List.foldl] using ih (step s e) hs.1 hs.2
  exact h initState (by decide) (by decide)

/-- Claim C2: for every sequence of begin-sentinel and end-sentinel visibility
events, at most one backward (`loadMoreBefore`) and at most one forward
(`loadMoreAfter`) pagination request is outstanding at any time; and a
visibility handler whose in-flight guard (`beforeCommentsIncoming` /
`afterCommentsIncoming`, or the corresponding `isLoadingMore` prop) is set
issues no new load and leaves the state unchanged. -/
theorem single_flight_invariant (evs : List Event) :
    ((run evs).beforeOutstanding ≤ 1 ∧ (run evs).afterOutstanding ≤ 1) ∧
    (∀ (hm lm : Bool) (sh st : Int) (s : ChatState),
      lm = true ∨ s.beforeCommentsIncoming = true →
      onBeginInView hm lm sh st s = s) ∧
    (∀ (hm lm : Bool) (s : ChatState),
      lm = true ∨ s.afterCommentsIncoming = true → onEndInView hm lm s = s) := by
  refine ⟨run_bounded evs, ?_, ?_⟩
  · intro hm lm sh st s h
    rcases h with h | h <;> simp [onBeginInView, h]
  · intro hm lm s h
    rcases h with h | h <;> simp [onEndInView, h]

theorem single_flight_invariant_witness :
    onEndInView true true initState = initState :=
  (single_flight_invariant []).2.2 true true initState (Or.inl rfl)

/-- Claim C1, counterexample: a backward load issued by the begin-sentinel
handler fails (`beforeLoadCompleted false`); contrary to the claim, the
in-flight flag `beforeCommentsIncoming` is NOT reset, and a subsequent
begin-sentinel visibility event with `beforeHasMore = true` is a complete
no-op (no new backward load is issued). -/
theorem begin_failure_counterexample :
    (run [Event.beginInView true 400 0,
      Event.beforeLoadCompleted false]).beforeCommentsIncoming = true ∧
    run [Event.beginInView true 400 0, Event.beforeLoadCompleted false,
        Event.beginInView true 400 0] =
      run [Event.beginInView true 400 0, Event.beforeLoadCompleted false] := by
  decide

/-- Claim C1 (amended): a failed backward load is caught and ignored, but the
backward in-flight flag `beforeCommentsIncoming` is NOT reset by the failure
path: it stays set, so a later begin-sentinel visibility event issues no new
backward load. The flag is reset only by `clearScrollState` (reached via the
comments-changed effects), after which a begin-sentinel event with
`beforeHasMore = true` issues a backward load again. -/
theorem begin_failure_flag_not_reset (s : ChatState)
    (h : s.beforeCommentsIncoming = true) :
    (beforeLoadDone false s).beforeCommentsIncoming = true ∧
    (∀ (hm lm : Bool) (sh st : Int), onBeginInView hm lm sh st s = s) ∧
    (clearScrollState s).beforeCommentsIncoming = false ∧
    (∀ (sh st : Int),
      (onBeginInView true false sh st (clearScrollState s)).beforeOutstanding =
        s.beforeOutstanding + 1) := by
  refine ⟨by simp [beforeLoadDone, h], ?_, rfl, ?_⟩
  · intro hm lm sh st
    simp [onBeginInView, h]
  · intro sh st
    simp [onBeginInView, clearScrollState]

theorem begin_failure_flag_not_reset_witness :
    (beforeLoadDone false
      { initState with beforeCommentsIncoming := true }).beforeCommentsIncoming
        = true :=
  (begin_failure_flag_not_reset
    { initState with beforeCommentsIncoming := true } rfl).1

lemma cursorUpdate_some_mono (cur : Option CursorState) (a : Nat) (cs : String)
    (c : CursorState) (h : cur = some c) :
    ∃ r, onCommentVisibleCursor cur a cs = some r ∧ c.createdAt ≤ r.createdAt := by
  subst h
  by_cases hlt : c.createdAt < a
  · exact ⟨{ createdAt := a, cursor := cs },
      by simp [onCommentVisibleCursor, hlt], le_of_lt hlt⟩
  · exact ⟨c, by simp [onCommentVisibleCursor, hlt], le_refl _⟩

lemma runCursorUpdates_mono (updates : List (Nat × String)) :
    ∀ (cur : Option CursorState) (c : CursorState), cur = some c →
      ∃ r, runCursorUpdates cur updates = some r ∧ c.createdAt ≤ r.createdAt := by
  induction updates with
  | nil =>
      intro cur c h
      exact ⟨c, by simp [runCursorUpdates, h], le_refl _⟩
  | cons u tl ih =>
      intro cur c h
      obtain ⟨r1, hr1, hle1⟩ := cursorUpdate_some_mono cur u.1 u.2 c h
      obtain ⟨r, hr, hle⟩ := ih (onCommentVisibleCursor cur u.1 u.2) r1 hr1
      refine ⟨r, ?_, le_trans hle1 hle⟩
      simpa [runCursorUpdates] using hr

/-- Claim C3: for every visibility callback for a fixed story/url key, the
persisted cursor record is overwritten only when the new `createdAt` is
strictly newer than the stored one or when no record exists yet; and the
stored record's `createdAt` is monotonically non-decreasing across any
sequence of updates. -/
theorem cursor_record_monotone (current : Option CursorState) (createdAt : Nat)
    (cursor : String) :
    (onCommentVisibleCursor current createdAt cursor ≠ current →
      current = none ∨ getCreatedAt current < createdAt) ∧
    (∀ c, current = some c → ∀ updates : List (Nat × String),
      (runCursorUpdates current updates).isSome = true ∧
        c.createdAt ≤ getCreatedAt (runCursorUpdates current updates)) := by
  constructor
  · intro hne
    cases current with
    | none => exact Or.inl rfl
    | some c =>
        by_cases hlt : c.createdAt < createdAt
        · exact Or.inr hlt
        · exact absurd (by simp [onCommentVisibleCursor, hlt]) hne
  · intro c hc updates
    obtain ⟨r, hr, hle⟩ := runCursorUpdates_mono updates current c hc
    refine ⟨by simp [hr], ?_⟩
    rw [hr]
    exact hle

theorem cursor_record_monotone_witness :
    (runCursorUpdates (some { createdAt := 5, cursor := "a" })
        [(3, "b"), (9, "c"), (9, "d")]).isSome = true ∧
      5 ≤ getCreatedAt (runCursorUpdates (some { createdAt := 5, cursor := "a" })
        [(3, "b"), (9, "c"), (9, "d")]) :=
  (cursor_record_monotone (some { createdAt := 5, cursor := "a" }) 3 "b").2
    { createdAt := 5, cursor := "a" } rfl [(3, "b"), (9, "c"), (9, "d")]

/-- Claim C4: the end-sentinel handler issues a forward load exactly when
`afterHasMore` holds, no forward load is in flight (`isLoadingMoreAfter`
false and `afterCommentsIncoming` false) and `tailing` is false; whenever it
issues a load the resulting tailing flag is false; and in the handler's
effect trace, `setTailing(false)` occurs strictly before the call to
`loadMoreAfter`. -/
theorem end_in_view_load_condition (afterHasMore isLoadingMoreAfterP : Bool)
    (s : ChatState) :
    ((onEndInView afterHasMore isLoadingMoreAfterP s).afterOutstanding =
        s.afterOutstanding + 1 ↔
      (afterHasMore = true ∧ isLoadingMoreAfterP = false ∧
        s.afterCommentsIncoming = false ∧ s.tailing = false)) ∧
    ((onEndInView afterHasMore isLoadingMoreAfterP s).afterOutstanding ≠
        s.afterOutstanding →
      (onEndInView afterHasMore isLoadingMoreAfterP s).tailing = false) ∧
    (EndInViewAction.callLoadMoreAfter ∈
        onEndInViewTrace afterHasMore isLoadingMoreAfterP
          s.afterCommentsIncoming s.tailing →
      List.indexOf EndInViewAction.emitSetTailingFalse
          (onEndInViewTrace afterHasMore isLoadingMoreAfterP
            s.afterCommentsIncoming s.tailing) <
        List.indexOf EndInViewAction.callLoadMoreAfter
          (onEndInViewTrace afterHasMore isLoadingMoreAfterP
            s.afterCommentsIncoming s.tailing)) := by
  obtain ⟨tl, binc, ainc, bo, ao, csp, psh, pst, sev, nc⟩ := s
  cases afterHasMore <;> cases isLoadingMoreAfterP <;> cases ainc <;> cases tl <;>
    simp [onEndInView, onEndInViewTrace]

theorem end_in_view_load_condition_witness :
    (onEndInView true false initState).afterOutstanding =
      initState.afterOutstanding + 1 :=
  (end_in_view_load_condition true false initState).1.mpr
    ⟨rfl, rfl, rfl, rfl⟩

/-- Claim C5, counterexample: with more forward data remaining
(`afterHasMore = true`) and the viewport away from the bottom, the scroll
handler itself sets tailing to false — it is not "left false by some other
mechanism". Before the scroll event tailing is true; after the scroll
handler alone runs, tailing is false. -/
theorem scroll_clears_tailing_counterexample :
    ({ initState with tailing := true, scrollEnabledVal := true } :
      ChatState).tailing = true ∧
    (onScroll true true true 0 1000 100 true
      { initState with tailing := true, scrollEnabledVal := true }).tailing =
        false := by
  decide

/-- Claim C5 (amended): for every scroll event (with the container and begin
refs present), the scroll handler assigns tailing the value
`atBottom && !afterHasMore`: tailing becomes true exactly when the viewport
is within 5px of the bottom and no more forward data exists; at the bottom
with `afterHasMore = true` tailing becomes false; and at any other position
the handler itself sets tailing to false. -/
theorem scroll_sets_tailing_assignment (scrollTop scrollHeight offsetHeight : Int)
    (afterHasMore : Bool) (s : ChatState) :
    ((onScroll true true true scrollTop scrollHeight offsetHeight afterHasMore
        s).tailing =
      (atBottom scrollTop scrollHeight offsetHeight && !afterHasMore)) ∧
    ((scrollTop - (scrollHeight - offsetHeight)).natAbs < 5 →
      afterHasMore = false →
      (onScroll true true true scrollTop scrollHeight offsetHeight afterHasMore
        s).tailing = true) ∧
    ((scrollTop - (scrollHeight - offsetHeight)).natAbs < 5 →
      afterHasMore = true →
      (onScroll true true true scrollTop scrollHeight offsetHeight afterHasMore
        s).tailing = false) := by
  refine ⟨rfl, ?_, ?_⟩
  · intro h5 hm
    simp [onScroll, atBottom, h5, hm]
  · intro h5 hm
    simp [onScroll, atBottom, h5, hm]

theorem scroll_sets_tailing_assignment_witness :
    (onScroll true true true 897 1000 100 false initState).tailing = true :=
  (scroll_sets_tailing_assignment 897 1000 100 false initState).2.1
    (by decide) rfl

/-- Claim C6: immediately after the initial mount effect runs on the initial
state, tailing is true when no resume cursor is supplied and false when one
is; and the effect scrolls to the before/after boundary marker exactly in the
resume case and to the bottom exactly in the no-cursor case. -/
theorem mount_tailing (cursorSet : Bool) :
    (mountEffect cursorSet initState).tailing = !cursorSet ∧
    (MountAction.scrollToBeforeAfter ∈ mountEffectTrace cursorSet initState ↔
      cursorSet = true) ∧
    (MountAction.scrollToEnd ∈ mountEffectTrace cursorSet initState ↔
      cursorSet = false) := by
  cases cursorSet <;> decide

/-- Claim C7 (code bug): during the warm-up window the stored scroll-enabled
flag (`scrollEnabled.current`) is still false, yet the scroll handler acts
anyway: the source guard `!scrollEnabled` tests the always-truthy ref object
instead of `scrollEnabled.current`, so a scroll event away from the bottom
still changes the state and clears tailing. -/
theorem scroll_acts_during_warmup :
    ({ initState with tailing := true } : ChatState).scrollEnabledVal = false ∧
    (onScroll true true true 0 1000 100 true
        { initState with tailing := true }).tailing = false ∧
    (onScroll true true true 0 1000 100 true { initState with tailing := true })
        ≠ { initState with tailing := true } := by
  decide

/-- Claim C8: when the local viewer submits a comment with non-empty id and
cursor, a pending jump-to-new-comment pointer is recorded exactly when
tailing is false at submission time; submitting while tailing is true leaves
the state unchanged. -/
theorem submit_pointer_when_not_tailing (commentID cursor : String)
    (s : ChatState) (hid : commentID ≠ "") (hcur : cursor ≠ "") :
    ((onCommentSubmitted commentID cursor s).newComment =
      if s.tailing then s.newComment
      else some { id := commentID, cursor := cursor }) ∧
    (s.tailing = true → onCommentSubmitted commentID cursor s = s) := by
  constructor
  · unfold onCommentSubmitted
    rw [if_neg (not_or.mpr ⟨hid, hcur⟩)]
    by_cases ht : s.tailing <;> simp [ht]
  · intro ht
    unfold onCommentSubmitted
    rw [if_neg (not_or.mpr ⟨hid, hcur⟩)]
    simp [ht]

theorem submit_pointer_when_not_tailing_witness :
    (onCommentSubmitted "c3" "cursor3" initState).newComment =
      some { id := "c3", cursor := "cursor3" } := by
  have h := (submit_pointer_when_not_tailing "c3" "cursor3" initState
    (by decide) (by decide)).1
  simpa [initState] using h

/-- Claim C9: the report control is rendered exactly when the viewer is
non-null, the viewer's current status includes none of BANNED, SUSPENDED or
WARNED, the moderation-caret condition is false, and an `onToggleReport`
handler was supplied. -/
theorem report_button_condition (viewer : Option Viewer)
    (storyCanModerate : Bool) (can : Viewer → Bool)
    (onToggleReportSupplied : Bool) :
    showReportButton viewer storyCanModerate can onToggleReportSupplied = true ↔
      ∃ v, viewer = some v ∧
        v.status.current.contains GQLUSER_STATUS.BANNED = false ∧
        v.status.current.contains GQLUSER_STATUS.SUSPENDED = false ∧
        v.status.current.contains GQLUSER_STATUS.WARNED = false ∧
        showModerationCaret viewer storyCanModerate can = false ∧
        onToggleReportSupplied = true := by
  cases viewer with
  | none =>
      simp [showReportButton, isViewerBanned, isViewerSuspended, isViewerWarned,
        includesStatus]
  | some v =>
      simp [showReportButton, isViewerBanned, isViewerSuspended, isViewerWarned,
        includesStatus, Bool.and_eq_true, Bool.not_eq_true']
      tauto

/-- Claim C10: the comment-submitted handler is a no-op when the supplied
comment id or cursor is the empty string, even when tailing is false. -/
theorem submit_empty_noop (commentID cursor : String) (s : ChatState)
    (h : commentID = "" ∨ cursor = "") :
    onCommentSubmitted commentID cursor s = s := by
  unfold onCommentSubmitted
  rw [if_pos h]

theorem submit_empty_noop_witness :
    onCommentSubmitted "" "cursor9" initState = initState :=
  submit_empty_noop "" "cursor9" initState (Or.inl rfl)

end LiveChat
